import Mathlib

/-!
Verification of the Dynamic Schema & Certificate-Issuance Engine of the
diamond-erp back end.

The Python source is shallowly embedded:

* dynamic (duck-typed) Python values appearing in certificate field maps
  become the closed tagged union `Value` (string, int, bool, None, dict);
  Python dicts are modelled as association lists in insertion order, which
  is exactly the iteration order Python guarantees;
* functions that can raise return `Except`;
* the MongoDB collections and the two MinIO buckets touched by the
  issuance handler become explicit components of a `World` record, and the
  handler becomes a state-passing function;
* external fault sources (a failing `copy_object` / `remove_object` /
  `insert_one`) are modelled as boolean oracles carried by the `World`,
  and `uuid.uuid4()` as an id supply.
-/

/-- Closed tagged union for the dynamic Python values stored in certificate
field maps (`Dict[str, Any]` in the source): strings, ints, bools, `None`
and nested dicts (as ordered association lists). -/
inductive Value where
  | vNull : Value
  | vStr (s : String) : Value
  | vInt (n : Int) : Value
  | vBool (b : Bool) : Value
  | vDict (entries : List (String × Value)) : Value
deriving Repr

/-- Python truthiness (`bool(v)`) for the shapes of `Value`:
`None`, `""`, `0`, `False` and the empty dict are falsy. -/
def pyTruthy : Value → Bool
  | Value.vNull => false
  | Value.vStr s => !(s == "")
  | Value.vInt n => !(n == 0)
  | Value.vBool b => b
  | Value.vDict d => !d.isEmpty

/-- `d.get(k)` on a Python dict: first binding of `k`, `none` when absent
(Python returns `None`; the source never distinguishes a stored `None`
from an absent key in a way our `Option` collapses). -/
def dictGet (d : List (String × Value)) (k : String) : Option Value :=
  (d.find? (fun kv => kv.1 = k)).map (fun kv => kv.2)

/-- `k in d` on a Python dict. -/
def hasKey (d : List (String × Value)) (k : String) : Bool :=
  (dictGet d k).isSome

/-- `d.get(k, '')`: stored value when the key is present, else `''`. -/
def dictGetD (d : List (String × Value)) (k : String) : Value :=
  (dictGet d k).getD (Value.vStr "")

mutual

/-- Python `str(v)` for `Value` shapes.  For dicts this is the builtin
`dict.__repr__`; the builtin is external to the repository, so string
entries are rendered with plain single quotes (the repository never feeds
quote-bearing strings to it). -/
def pyStr : Value → String
  | Value.vNull => "None"
  | Value.vStr s => s
  | Value.vInt n => toString n
  | Value.vBool b => cond b "True" "False"
  | Value.vDict d => "\x7b" ++ pyReprEntries d ++ "\x7d"

/-- Python `repr(v)` (used inside the builtin dict repr). -/
def pyRepr : Value → String
  | Value.vNull => "None"
  | Value.vStr s => "\x27" ++ s ++ "\x27"
  | Value.vInt n => toString n
  | Value.vBool b => cond b "True" "False"
  | Value.vDict d => "\x7b" ++ pyReprEntries d ++ "\x7d"

/-- The comma-separated `'k': repr(v)` items of the builtin dict repr. -/
def pyReprEntries : List (String × Value) → String
  | [] => ""
  | [(k, v)] => "\x27" ++ k ++ "\x27: " ++ pyRepr v
  | (k, v) :: kv :: rest =>
      "\x27" ++ k ++ "\x27: " ++ pyRepr v ++ ", " ++ pyReprEntries (kv :: rest)

end

/-- Python `sep.join(items)` for string items (`str.join` raises a
`TypeError` on non-string items; callers model that separately). -/
def pyJoin (sep : String) : List String → String
  | [] => ""
  | [s] => s
  | s :: rest => s ++ sep ++ pyJoin sep rest

/-- Is this `Value` a Python `str`? (`str.join` accepts only these.) -/
def isVStr : Value → Bool
  | Value.vStr _ => true
  | _ => false

/-- The payload of a `Value.vStr` (callers establish `isVStr` first). -/
def strOfVStr : Value → String
  | Value.vStr s => s
  | _ => ""

/-- `format_composite_value` from `app/utils/template_renderer.py`.
If all of `length`, `width`, `height` are keys of the dict, the three
values (with falsy ones filtered out) are joined with `' x '` — this is
Python `' x '.join(parts)`, which raises `TypeError` when a retained part
is not a `str`; otherwise the falsy-filtered dict values are stringified
and joined with `', '`.  The `Except` error is the raised `TypeError`. -/
def format_composite_value (value : List (String × Value)) : Except String String :=
  if hasKey value "length" && hasKey value "width" && hasKey value "height" then
    let parts := [dictGetD value "length", dictGetD value "width", dictGetD value "height"]
    let parts := parts.filter pyTruthy
    if parts.all isVStr then
      Except.ok (pyJoin " x " (parts.map strOfVStr))
    else
      Except.error "TypeError: sequence item: expected str instance"
  else
    Except.ok (pyJoin ", " (((value.map (fun kv => kv.2)).filter pyTruthy).map pyStr))

/-- Python `path.split('.')` (always a nonempty list; `'' → ['']`). -/
def splitOnDotAux : List Char → List Char → List String
  | acc, [] => [String.mk acc.reverse]
  | acc, c :: rest =>
    if c = '.' then String.mk acc.reverse :: splitOnDotAux [] rest
    else splitOnDotAux (c :: acc) rest

/-- Python `path.split('.')`. -/
def splitOnDot (s : String) : List String :=
  splitOnDotAux [] s.toList

/-- The key walk of `get_nested_value`: start from the whole data dict,
follow each dotted key while the current value is a dict, else `None`. -/
def goNested : Option Value → List String → Option Value
  | v, [] => v
  | some (Value.vDict d), k :: ks => goNested (dictGet d k) ks
  | _, _ :: _ => none

/-- `get_nested_value` from `app/utils/template_renderer.py`: dotted-path
lookup into the field-values dict. -/
def get_nested_value (data : List (String × Value)) (path : String) : Option Value :=
  goNested (some (Value.vDict data)) (splitOnDot path)

/-- The per-placeholder value conversion inside
`render_description_template`: `None`/`''` become `''`, ints (and bools,
which are `int`s to `isinstance`) go through `str`, dicts go through
`format_composite_value` (which can raise), anything else through `str`. -/
def renderValue : Option Value → Except String String
  | none => Except.ok ""
  | some Value.vNull => Except.ok ""
  | some (Value.vStr s) => Except.ok s
  | some (Value.vInt n) => Except.ok (toString n)
  | some (Value.vBool b) => Except.ok (cond b "True" "False")
  | some (Value.vDict d) => format_composite_value d

/-- The character `{`. -/
def lbrace : Char := Char.ofNat 123

/-- The character `}`. -/
def rbrace : Char := Char.ofNat 125

/-- One attempted match of `\x7b[^\x7d]+\x7d` at the current position:
the (nonempty) run of non-`}` characters after a `{`, together with the
remainder after the closing `}`. -/
def grabPlaceholder (cs : List Char) : Option (List Char × List Char) :=
  let cap := cs.takeWhile (fun c => !(c == rbrace))
  let rest := cs.dropWhile (fun c => !(c == rbrace))
  if cap.isEmpty then none
  else if rest.isEmpty then none
  else some (cap, rest.tail)

/-- `re.findall(r'\x7b([^\x7d]+)\x7d', template)`: left-to-right,
non-overlapping matches; at each `{` the engine captures the maximal
nonempty run of non-`}` characters followed by `}`, consuming the match;
on failure it advances one character.  The fuel argument (instantiated
with the string length, which strictly bounds every recursive call) keeps
the recursion structural. -/
def findPlaceholdersFuel : Nat → List Char → List String
  | 0, _ => []
  | _ + 1, [] => []
  | fuel + 1, c :: rest =>
    if c = lbrace then
      match grabPlaceholder rest with
      | some (cap, rem) => String.mk cap :: findPlaceholdersFuel fuel rem
      | none => findPlaceholdersFuel fuel rest
    else
      findPlaceholdersFuel fuel rest

/-- `re.findall(r'\x7b([^\x7d]+)\x7d', template)`. -/
def findPlaceholders (cs : List Char) : List String :=
  findPlaceholdersFuel cs.length cs

/-- Python `s.replace(pat, rep)` on character lists: replace every
non-overlapping occurrence left to right.  `pat` is nonempty at every
call site (it is a brace-wrapped placeholder), so the fuel (the subject
length) suffices: each step consumes at least one character. -/
def pyReplaceFuel (pat rep : List Char) : Nat → List Char → List Char
  | 0, s => s
  | _ + 1, [] => []
  | fuel + 1, c :: rest =>
    if pat.isPrefixOf (c :: rest) then
      rep ++ pyReplaceFuel pat rep fuel ((c :: rest).drop pat.length)
    else
      c :: pyReplaceFuel pat rep fuel rest

/-- Python `s.replace(pat, rep)` for a nonempty `pat`. -/
def pyReplace (s pat rep : String) : String :=
  String.mk (pyReplaceFuel pat.toList rep.toList s.toList.length s.toList)


/-- The ASCII whitespace characters Python treats as `\s` / strippable
(the source never meets non-ASCII whitespace). -/
def isPySpace (c : Char) : Bool :=
  c = ' ' || c = '\t' || c = '\n' || c = '\r' || c = Char.ofNat 11 || c = Char.ofNat 12

/-- `re.sub(r'\s+', ' ', ·)` on a character list; the flag records whether
the previous character belonged to a whitespace run already emitted. -/
def collapseWsAux : Bool → List Char → List Char
  | _, [] => []
  | prevWs, c :: rest =>
    if isPySpace c then
      if prevWs then collapseWsAux true rest
      else ' ' :: collapseWsAux true rest
    else c :: collapseWsAux false rest

/-- `re.sub(r'\s+', ' ', s)`. -/
def collapseWs (s : String) : String :=
  String.mk (collapseWsAux false s.toList)

/-- Python `str.strip()`. -/
def pyStrip (s : String) : String :=
  String.mk (((s.toList.dropWhile isPySpace).reverse.dropWhile isPySpace).reverse)

/-- The substitution loop of `render_description_template`: for each found
placeholder, strip it, resolve it, convert the value (which can raise for
dict values) and replace every occurrence of `\x7b`+stripped name+`\x7d`. -/
def substPlaceholders : List String → List (String × Value) → String → Except String String
  | [], _, res => Except.ok res
  | ph :: rest, vals, res =>
    let field_name := pyStrip ph
    match renderValue (get_nested_value vals field_name) with
    | Except.error e => Except.error e
    | Except.ok value_str =>
        substPlaceholders rest vals (pyReplace res ("\x7b" ++ field_name ++ "\x7d") value_str)

/-- `render_description_template` from `app/utils/template_renderer.py`:
`None`/`''` templates yield `''`; otherwise every regex-found placeholder
is substituted in turn and the result is whitespace-collapsed and
stripped.  The `Except` error is a raised exception (the dimensional
`' x '.join` TypeError). -/
def render_description_template (template : Option String)
    (field_values : List (String × Value)) : Except String String :=
  match template with
  | none => Except.ok ""
  | some t =>
    if t = "" then Except.ok ""
    else
      match substPlaceholders (findPlaceholders t.toList) field_values t with
      | Except.error e => Except.error e
      | Except.ok result => Except.ok (pyStrip (collapseWs result))



/-! ## Number Allocator — `app/utils/cert_numbering.py` -/

/-- Python `f"\x7bn:04d\x7d"` for a natural number: zero-pad to width 4
(wider numbers keep all their digits). -/
def pad4 (n : Nat) : String :=
  let s := toString n
  if s.length ≥ 4 then s else String.mk (List.replicate (4 - s.length) '0') ++ s

/-- Python `s[-4:]`: the last four characters (the whole string when
shorter). -/
def lastFour (s : String) : String :=
  String.mk ((s.toList.reverse.take 4).reverse)

/-- Python `int(s)` for the digit strings occurring in certificate
numbers; a non-digit (or empty) string raises `ValueError`, here `none`
(the source catches it and falls back to sequence 1). -/
def digitsToNat? (s : String) : Option Nat :=
  if !s.toList.isEmpty && s.toList.all Char.isDigit then
    some (s.toList.foldl (fun a c => 10 * a + (c.toNat - 48)) 0)
  else none

/-- Lexicographic comparison of character lists by code point — the
order Mongo's byte-wise string sort induces on these ASCII strings. -/
def charListLt : List Char → List Char → Bool
  | [], [] => false
  | [], _ :: _ => true
  | _ :: _, [] => false
  | a :: as, b :: bs =>
    if a.toNat < b.toNat then true
    else if b.toNat < a.toNat then false
    else charListLt as bs

/-- The Mongo `find_one(sort=[("certificate_number", -1)])`: the maximum
string of the list under byte order, `none` on an empty list. -/
def maxString : List String → Option String
  | [] => none
  | s :: rest =>
    match maxString rest with
    | none => some s
    | some m => if charListLt m.toList s.toList then some s else some m

/-- `next_certificate_number` from `app/utils/cert_numbering.py`, as a
function of today's `YYMMDD` date string and of the certificate numbers
currently persisted in the `certifications` collection (the function
reads that collection and writes nothing).  It takes the highest
persisted number with today's `G`-prefix, increments its last four
digits (falling back to 1 when absent or unparsable), raises `ValueError`
past 9999, and — the source's "extra safety" re-check — if the candidate
is already persisted, bumps the sequence once more without re-checking. -/
def next_certificate_number (today : String) (certNumbers : List String) :
    Except String String :=
  let pfx := "G" ++ today
  let todays := certNumbers.filter (fun n => pfx.toList.isPrefixOf n.toList)
  let next_seq : Nat :=
    match maxString todays with
    | some last =>
      match digitsToNat? (lastFour last) with
      | some k => k + 1
      | none => 1
    | none => 1
  if next_seq > 9999 then
    Except.error ("Certificate limit exceeded for date " ++ today)
  else
    let cert_number := pfx ++ pad4 next_seq
    if certNumbers.contains cert_number then
      Except.ok (pfx ++ pad4 (next_seq + 1))
    else
      Except.ok cert_number


/-! ## Schema Registry — `app/api/super_admin_categories.py` -/

/-- `FieldDefinition` from `app/schemas/category_schema.py` (the audit
and conditional-display components that no claim touches are carried as
opaque payload by `options`/`help_text`-style optional components). -/
structure FieldDefinition where
  field_id : Option String := none
  label : String
  field_name : String
  field_type : String
  is_required : Bool := false
  placeholder : Option String := none
  default_value : Option Value := none
  options : Option (List String) := none
  display_order : Nat := 0
  help_text : Option String := none
deriving Repr

/-- Python truthiness of an `Optional[str]`: `None` and `''` are falsy. -/
def pyTruthyStrOpt : Option String → Bool
  | none => false
  | some s => !(s == "")

/-- `_ensure_field_ids` from `app/api/super_admin_categories.py`:
auto-generate a `field_id` (a fresh `uuid4`, modelled by the supply
`gen`, consumed in order) for any field whose `field_id` is falsy. -/
def ensure_field_ids (gen : Nat → String) : Nat → List FieldDefinition → List FieldDefinition
  | _, [] => []
  | used, f :: fs =>
    if pyTruthyStrOpt f.field_id then
      f :: ensure_field_ids gen used fs
    else
      { f with field_id := some (gen used) } :: ensure_field_ids gen (used + 1) fs

/-- The `for idx, f in enumerate(fields_dicts): f["display_order"] = idx`
loop of `replace_fields`. -/
def assignDisplayOrders : Nat → List FieldDefinition → List FieldDefinition
  | _, [] => []
  | idx, f :: fs => { f with display_order := idx } :: assignDisplayOrders (idx + 1) fs

/-- `CategorySchema` documents as stored in the `category_schemas`
collection (audit stamps and timestamps are supplied by external
identity/clock collaborators and not modelled). -/
structure CategorySchema where
  uuid : String
  name : String
  group : String
  description : Option String := none
  description_template : Option String := none
  fields : List FieldDefinition := []
  is_active : Bool := true
  is_deleted : Bool := false
deriving Repr

/-- `replace_fields` (PUT `/\x7bschema_uuid\x7d/fields`) from
`app/api/super_admin_categories.py`, as a function of the stored schema
list: 404 when no non-deleted schema has the uuid; otherwise generate
missing field ids, assign `display_order` from list position, store, and
return the freshly re-read document. -/
def replace_fields (gen : Nat → String) (schemas : List CategorySchema)
    (schema_uuid : String) (payload : List FieldDefinition) :
    Except Nat CategorySchema :=
  match schemas.find? (fun s => s.uuid == schema_uuid && !s.is_deleted) with
  | none => Except.error 404
  | some doc =>
    Except.ok { doc with fields := assignDisplayOrders 0 (ensure_field_ids gen 0 payload) }

/-! ## Issuance Orchestrator — `app/api/certification.py` -/

/-- A raised `fastapi.HTTPException` (or an uncaught server exception,
surfaced with status 500). -/
structure HTTPError where
  status_code : Nat
  detail : String
deriving Repr, DecidableEq

/-- A persisted `certifications` document (timestamps come from the
external clock and are not modelled; `uuid` comes from the `uuid4`
supply). -/
structure Cert where
  uuid : String
  certificate_number : String
  type : String
  client_id : String
  category_id : Option String
  fields : List (String × Value)
  photo_url : Option String
  brand_logo_url : Option String
  rear_brand_logo_url : Option String
  is_deleted : Bool
deriving Repr

/-- The state the issuance handler reads and writes: the Mongo
collections (`clients` as the uuids of its non-deleted documents,
`category_schemas`, `certifications`), the two MinIO buckets as lists of
object ids, fault oracles for the external storage/database calls, the
UTC date `datetime.utcnow().strftime("%y%m%d")` will produce, the
`uuid4` supply and a count of allocator invocations. -/
structure World where
  clients : List String
  schemas : List CategorySchema
  temp : List String
  perm : List String
  certs : List Cert
  copyFails : String → Bool
  removeFails : String → Bool
  insertFails : Bool
  today : String
  uuidSupply : String
  allocCalls : Nat

/-- `promote_file_from_temp` from `app/api/certification.py`: reject a
blank id (400); a failed `stat_object` — the file is absent from
`cert-temp` — is re-raised as a 404; then `copy_object` into
`certificates` and `remove_object` from `cert-temp`, any transport
failure becoming a 500 "File move failed".  The returned world keeps the
mutations performed before a failure (a copy whose follow-up removal
fails has already landed in the permanent bucket). -/
def promote_file_from_temp (file_id : String) (w : World) :
    Except HTTPError String × World :=
  if pyStrip file_id == "" then
    (Except.error ⟨400, "File ID is empty or invalid"⟩, w)
  else if !(w.temp.contains file_id) then
    (Except.error ⟨404, "File not found in temporary storage: " ++ file_id ++
      ". Please re-upload the file."⟩, w)
  else if w.copyFails file_id then
    (Except.error ⟨500, "File move failed"⟩, w)
  else
    let w1 := { w with perm := file_id :: w.perm }
    if w.removeFails file_id then
      (Except.error ⟨500, "File move failed"⟩, w1)
    else
      (Except.ok ("certificates/" ++ file_id),
        { w1 with temp := w1.temp.erase file_id })

/-- One `if payload.<x>_file_id: <x>_url = promote_file_from_temp(...)`
block of `create_certification` (a falsy id — `None` or `''` — skips the
promotion and leaves the url `None`; the surrounding `try/except` only
logs and re-raises). -/
def promoteOptional (fid : Option String) (w : World) :
    Except HTTPError (Option String) × World :=
  if pyTruthyStrOpt fid then
    match promote_file_from_temp (fid.getD "") w with
    | (Except.ok url, w1) => (Except.ok (some url), w1)
    | (Except.error e, w1) => (Except.error e, w1)
  else
    (Except.ok none, w)

/-- Python truthiness of the value found for a key (`None` for a missing
key). -/
def pyTruthyOptV : Option Value → Bool
  | none => false
  | some v => pyTruthy v

/-- The required-field loop of `create_certification`: the first schema
field with `is_required` whose submitted value is falsy or absent. -/
def firstMissingRequired (fds : List FieldDefinition)
    (vals : List (String × Value)) : Option FieldDefinition :=
  fds.find? (fun fd => fd.is_required && !pyTruthyOptV (dictGet vals fd.field_name))

/-- The request body `CertificationCreate` from `app/api/certification.py`. -/
structure CertificationCreate where
  type : String
  client_id : String
  category_id : Option String := none
  fields : List (String × Value)
  photo_file_id : Option String := none
  logo_file_id : Option String := none
  rear_logo_file_id : Option String := none

/-- `create_certification` (POST `/api/certifications`) from
`app/api/certification.py`: look up the non-deleted client (404);
when `category_id` is truthy, look up the active non-deleted schema
(400) and fail 422 on the first missing required field; promote the
up-to-three staged files in order (each failure re-raised, promotions
already performed are kept — there is no compensation in this handler);
allocate a number with `next_certificate_number`; insert the document
(an `insert_one` failure propagates as an uncaught 500, after which the
promoted files and the read state simply remain).  Returns the response
`(uuid, certificate_number)` and the final world. -/
def create_certification (p : CertificationCreate) (w : World) :
    Except HTTPError (String × String) × World :=
  if !(w.clients.contains p.client_id) then
    (Except.error ⟨404, "Client not found"⟩, w)
  else
    let valErr : Option HTTPError :=
      if pyTruthyStrOpt p.category_id then
        match w.schemas.find? (fun s =>
            s.uuid == p.category_id.getD "" && !s.is_deleted && s.is_active) with
        | none => some ⟨400, "Invalid category schema"⟩
        | some schema =>
          (firstMissingRequired schema.fields p.fields).map (fun fd =>
            ⟨422, "Required field \x27" ++ fd.label ++ "\x27 is missing"⟩)
      else none
    match valErr with
    | some e => (Except.error e, w)
    | none =>
      match promoteOptional p.photo_file_id w with
      | (Except.error e, w1) => (Except.error e, w1)
      | (Except.ok photo_url, w1) =>
        match promoteOptional p.logo_file_id w1 with
        | (Except.error e, w2) => (Except.error e, w2)
        | (Except.ok logo_url, w2) =>
          match promoteOptional p.rear_logo_file_id w2 with
          | (Except.error e, w3) => (Except.error e, w3)
          | (Except.ok rear_logo_url, w3) =>
            let w4 := { w3 with allocCalls := w3.allocCalls + 1 }
            match next_certificate_number w4.today
                (w4.certs.map (fun c => c.certificate_number)) with
            | Except.error msg => (Except.error ⟨500, msg⟩, w4)
            | Except.ok number =>
              let doc : Cert :=
                { uuid := w4.uuidSupply
                  certificate_number := number
                  type := p.type
                  client_id := p.client_id
                  category_id := p.category_id
                  fields := p.fields
                  photo_url := photo_url
                  brand_logo_url := logo_url
                  rear_brand_logo_url := rear_logo_url
                  is_deleted := false }
              if w4.insertFails then
                (Except.error ⟨500, "Internal Server Error"⟩, w4)
              else
                (Except.ok (doc.uuid, number), { w4 with certs := w4.certs ++ [doc] })

/-! ## Auxiliary predicates and concrete instances used by the theorems -/

/-- The three-key dimensional check of `format_composite_value`. -/
def dimKeys (d : List (String × Value)) : Bool :=
  hasKey d "length" && hasKey d "width" && hasKey d "height"

/-- The dimensional branch of `format_composite_value` cannot raise on
this dict: either a dimension key is absent, or the truthy values at
`length`/`width`/`height` are all strings (so `' x '.join` accepts them). -/
def dimOk (d : List (String × Value)) : Bool :=
  !dimKeys d ||
    ([dictGetD d "length", dictGetD d "width", dictGetD d "height"].filter pyTruthy).all isVStr

mutual

/-- No dict reachable inside this value can make `format_composite_value`
raise its `' x '.join` TypeError. -/
def dimSafe : Value → Bool
  | Value.vDict d => dimOk d && dimSafeEntries d
  | _ => true

/-- `dimSafe` for every value of an association list. -/
def dimSafeEntries : List (String × Value) → Bool
  | [] => true
  | (_, v) :: rest => dimSafe v && dimSafeEntries rest

end

/-- How many of the first `i` submitted fields have a falsy `field_id`
(these are exactly the fields that consume a generated uuid). -/
def missingIdsBefore (fs : List FieldDefinition) (i : Nat) : Nat :=
  ((fs.take i).filter (fun f => !pyTruthyStrOpt f.field_id)).length

/-- A world whose `insert_one` fails, holding one client `c` and two
staged objects, used to exercise the failed-persist path. -/
def persistFailWorld : World :=
  { clients := ["c"], schemas := [], temp := ["f1", "f2"], perm := [], certs := []
    copyFails := fun _ => false, removeFails := fun _ => false, insertFails := true
    today := "250901", uuidSupply := "u1", allocCalls := 0 }

/-- An issuance request promoting the two staged objects of
`persistFailWorld`, without a category schema. -/
def twoFilePayload : CertificationCreate :=
  { type := "diamond", client_id := "c", fields := []
    photo_file_id := some "f1", logo_file_id := some "f2" }

/-- A world holding one client and an empty staging bucket, used to
exercise the missing-staged-file path. -/
def missingFileWorld : World :=
  { clients := ["c"], schemas := [], temp := [], perm := [], certs := []
    copyFails := fun _ => false, removeFails := fun _ => false, insertFails := false
    today := "250901", uuidSupply := "u1", allocCalls := 0 }

/-- An issuance request whose photo staged-file id `p1` does not exist in
the staging bucket of `missingFileWorld`. -/
def missingPhotoPayload : CertificationCreate :=
  { type := "diamond", client_id := "c", fields := [], photo_file_id := some "p1" }


/-- The required "Clarity" field of the concrete validation scenario. -/
def clarityField : FieldDefinition :=
  { label := "Clarity", field_name := "clarity", field_type := "dropdown"
    is_required := true }

/-- A concrete active, non-deleted schema with one required field. -/
def looseSchema : CategorySchema :=
  { uuid := "s1", name := "Loose Diamond", group := "loose_diamond"
    fields := [clarityField] }

/-- A world holding one client and the schema `looseSchema`. -/
def validationWorld : World :=
  { clients := ["c"], schemas := [looseSchema], temp := [], perm := [], certs := []
    copyFails := fun _ => false, removeFails := fun _ => false, insertFails := false
    today := "250901", uuidSupply := "u1", allocCalls := 0 }

/-- A submission against `looseSchema` that omits the required
`clarity` key. -/
def missingClarityPayload : CertificationCreate :=
  { type := "loose_diamond", client_id := "c", category_id := some "s1"
    fields := [("shape", Value.vStr "Round"), ("weight", Value.vStr "1.50")] }



/-- A deterministic stand-in for the stream of `uuid.uuid4()` draws. -/
def genUuid (n : Nat) : String := "uuid-" ++ toString n

/-- A submitted field carrying no `field_id`. -/
def fieldNoId : FieldDefinition :=
  { label := "Shape", field_name := "shape", field_type := "text" }

/-- A submitted field that already carries a `field_id`. -/
def fieldWithId : FieldDefinition :=
  { field_id := some "fid-1", label := "Weight", field_name := "weight"
    field_type := "number", display_order := 7 }

/-- A two-field `replaceFields` submission. -/
def replacePayload : List FieldDefinition := [fieldNoId, fieldWithId]

/-- What `replace_fields` stores for `replacePayload` on `looseSchema`. -/
def replacedSchema : CategorySchema :=
  { looseSchema with fields :=
      [{ fieldNoId with field_id := some "uuid-0", display_order := 0 },
       { fieldWithId with display_order := 1 }] }


/-! ## Theorems -/

/-- C7 (counterexample): the claim says two successive calls to
`next_certificate_number()` in the same UTC day starting from a fresh
counter return `G<YYMMDD>0001` and then `G<YYMMDD>0002`.  The function
only reads the `certifications` collection and writes nothing, so a
second call with no intervening persist sees the same state and returns
`G2509010001` again, not `G2509010002`. -/
theorem c7_counterexample :
    next_certificate_number "250901" [] = Except.ok "G2509010001" ∧
    ("G2509010001" : String) ≠ "G2509010002" := by
  exact ⟨rfl, by decide⟩

/-- C7 (amended): two successive calls in the same UTC day starting from
a fresh counter return `G2509010001` and then `G2509010002`, provided the
certificate bearing the first number is persisted between the calls. -/
theorem c7_two_calls :
    next_certificate_number "250901" [] = Except.ok "G2509010001" ∧
    next_certificate_number "250901" ["G2509010001"] = Except.ok "G2509010002" := by
  exact ⟨rfl, rfl⟩

/-- C1 (code bug, evaluated at the failing input): the allocator is a
pure read of the `certifications` collection (its Lean type takes the
persisted numbers and returns a number, mutating nothing), not an atomic
read-modify-write on a counter.  Concretely: a first issuance for
2025-09-01 is allocated sequence 0001 and its `insert_one` fails, leaving
the collection unchanged and the allocator called once; a later issuance
re-reads the unchanged collection and is handed the same `G2509010001`
— the sequence value of the failed request is returned again, and two
concurrent fresh-counter callers would receive this same value. -/
theorem c1_sequence_reused_after_failed_persist :
    (create_certification twoFilePayload { persistFailWorld with insertFails := false }).1
      = Except.ok ("u1", "G2509010001") ∧
    (create_certification twoFilePayload persistFailWorld).1
      = Except.error ⟨500, "Internal Server Error"⟩ ∧
    (create_certification twoFilePayload persistFailWorld).2.certs = [] ∧
    (create_certification twoFilePayload persistFailWorld).2.allocCalls = 1 ∧
    (create_certification
        { twoFilePayload with photo_file_id := none, logo_file_id := none }
        { (create_certification twoFilePayload persistFailWorld).2 with insertFails := false }).1
      = Except.ok ("u1", "G2509010001") := by
  exact ⟨rfl, rfl, rfl, rfl, rfl⟩

/-- C2 (counterexample): the claim says that when the persist step fails
after files were promoted, every promoted object is removed from the
permanent bucket.  In the single-certificate handler there is no
compensation: after `insert_one` fails, both promoted objects are still
in the permanent bucket (and no certificate record exists). -/
theorem c2_counterexample :
    (create_certification twoFilePayload persistFailWorld).1
      = Except.error ⟨500, "Internal Server Error"⟩ ∧
    (create_certification twoFilePayload persistFailWorld).2.perm = ["f2", "f1"] ∧
    (create_certification twoFilePayload persistFailWorld).2.certs = [] := by
  exact ⟨rfl, rfl, rfl⟩

/-- C3 (counterexample): the claim says an issuance whose photo
staged-file id no longer exists in staging succeeds with a null
`photo_url`.  The handler instead re-raises the failed `stat_object` as
an HTTP 404 and persists nothing. -/
theorem c3_counterexample :
    (create_certification missingPhotoPayload missingFileWorld).1
      = Except.error ⟨404,
          "File not found in temporary storage: p1. Please re-upload the file."⟩ ∧
    (create_certification missingPhotoPayload missingFileWorld).2.certs = [] := by
  exact ⟨rfl, rfl⟩

/-- C5 (counterexample): the claim says the renderer is total and
substitutes every unrecognized placeholder by the empty string.  A
dimensional composite whose values are numbers makes `' x '.join` raise
a TypeError, and a placeholder written with whitespace inside the braces
is left literal (the stripped name no longer matches the template text). -/
theorem c5_counterexample :
    render_description_template (some "\x7bd\x7d")
      [("d", Value.vDict [("length", Value.vInt 1), ("width", Value.vInt 2),
        ("height", Value.vInt 3)])]
      = Except.error "TypeError: sequence item: expected str instance" ∧
    render_description_template (some "\x7b a \x7d") [] = Except.ok "\x7b a \x7d" := by
  exact ⟨rfl, rfl⟩

/-- C6 (counterexample): the claim says the `"L x W x H"` formatter fires
exactly when the map has exactly the three keys `length`/`width`/`height`
and that omitting `height` still renders `"1 x 2"`.  The code fires the
formatter whenever all three keys are present (extra keys are ignored,
not comma-joined), and a map lacking the `height` key falls through to
the comma join, rendering `"1, 2"`. -/
theorem c6_counterexample :
    format_composite_value [("length", Value.vStr "1"), ("width", Value.vStr "2"),
      ("height", Value.vStr "3"), ("depth", Value.vStr "4")] = Except.ok "1 x 2 x 3" ∧
    format_composite_value [("length", Value.vStr "1"), ("width", Value.vStr "2")]
      = Except.ok "1, 2" := by
  exact ⟨rfl, rfl⟩

/-- C3 (amended): for every world and every issuance whose photo
staged-file id is non-blank but absent from the staging bucket (client
exists, no category), the request fails hard with the 404
"File not found in temporary storage" error and the world is unchanged —
no certificate record, no bucket mutation.  A missing staged file is a
hard failure exactly like a transport error, not a soft warning. -/
theorem c3_missing_staged_file_is_hard_404
    (w : World) (f ty cl : String)
    (hcl : w.clients.contains cl = true)
    (hf : pyStrip f ≠ "")
    (hmiss : w.temp.contains f = false) :
    create_certification { type := ty, client_id := cl, fields := [], photo_file_id := some f } w
      = (Except.error ⟨404, "File not found in temporary storage: " ++ f ++
          ". Please re-upload the file."⟩, w) := by
  have hf0 : f ≠ "" := by
    intro h
    exact hf (by simp [h, pyStrip])
  have hcl' : cl ∈ w.clients := by simpa using hcl
  have hmiss' : f ∉ w.temp := by simpa using hmiss
  simp [create_certification, promoteOptional, promote_file_from_temp,
    pyTruthyStrOpt, hcl', hf0, hf, hmiss']

/-- Witness for `c3_missing_staged_file_is_hard_404` at a concrete
world and file id. -/
theorem c3_missing_staged_file_is_hard_404_witness :
    (missingFileWorld.clients.contains "c" = true ∧ pyStrip "p1" ≠ "" ∧
      missingFileWorld.temp.contains "p1" = false) ∧
    create_certification
        { type := "diamond", client_id := "c", fields := [], photo_file_id := some "p1" }
        missingFileWorld
      = (Except.error ⟨404, "File not found in temporary storage: " ++ "p1" ++
          ". Please re-upload the file."⟩, missingFileWorld) :=
  ⟨⟨by decide, by decide, by decide⟩,
    c3_missing_staged_file_is_hard_404 missingFileWorld "p1" "diamond" "c"
      (by decide) (by decide) (by decide)⟩

/-- C2 (amended): in a single-certificate issuance in which both staged
files were promoted to the permanent bucket and the subsequent persist
fails, no compensation runs: every promoted object remains in the
permanent bucket (their staged copies are gone), no certificate record
exists, and the caller sees the uncaught 500.  (Only the bulk endpoint
removes promoted objects on failure.) -/
theorem c2_promoted_files_remain_on_persist_failure
    (f1 f2 c ty d u : String)
    (h1 : pyStrip f1 ≠ "") (h2 : pyStrip f2 ≠ "") :
    create_certification
        { type := ty, client_id := c, fields := []
          photo_file_id := some f1, logo_file_id := some f2 }
        { clients := [c], schemas := [], temp := [f1, f2], perm := [], certs := []
          copyFails := fun _ => false, removeFails := fun _ => false, insertFails := true
          today := d, uuidSupply := u, allocCalls := 0 }
      = (Except.error ⟨500, "Internal Server Error"⟩,
         { clients := [c], schemas := [], temp := [], perm := [f2, f1], certs := []
           copyFails := fun _ => false, removeFails := fun _ => false, insertFails := true
           today := d, uuidSupply := u, allocCalls := 1 }) := by
  have h10 : f1 ≠ "" := by intro h; exact h1 (by simp [h, pyStrip])
  have h20 : f2 ≠ "" := by intro h; exact h2 (by simp [h, pyStrip])
  simp [create_certification, promoteOptional, promote_file_from_temp,
    pyTruthyStrOpt, next_certificate_number, maxString, pad4,
    h1, h2, h10, h20, List.erase_cons_head]

/-- Witness for `c2_promoted_files_remain_on_persist_failure` at the
concrete two-file world. -/
theorem c2_promoted_files_remain_on_persist_failure_witness :
    (pyStrip "f1" ≠ "" ∧ pyStrip "f2" ≠ "") ∧
    create_certification
        { type := "diamond", client_id := "c", fields := []
          photo_file_id := some "f1", logo_file_id := some "f2" }
        { clients := ["c"], schemas := [], temp := ["f1", "f2"], perm := [], certs := []
          copyFails := fun _ => false, removeFails := fun _ => false, insertFails := true
          today := "250901", uuidSupply := "u1", allocCalls := 0 }
      = (Except.error ⟨500, "Internal Server Error"⟩,
         { clients := ["c"], schemas := [], temp := [], perm := ["f2", "f1"], certs := []
           copyFails := fun _ => false, removeFails := fun _ => false, insertFails := true
           today := "250901", uuidSupply := "u1", allocCalls := 1 }) :=
  ⟨⟨by decide, by decide⟩,
    c2_promoted_files_remain_on_persist_failure "f1" "f2" "c" "diamond" "250901" "u1"
      (by decide) (by decide)⟩

/-- C9: when the issuance payload omits `category_id`, no schema lookup
and no required-field validation occur at all: whatever the stored
schemas are and whatever (possibly empty) fields map is submitted, the
certificate is persisted as-is with null asset urls, provided only that
the client exists (here by construction) and no staged files were
supplied. -/
theorem c9_omitted_category_skips_validation
    (schemas : List CategorySchema) (flds : List (String × Value)) (ty cl d u : String) :
    create_certification { type := ty, client_id := cl, category_id := none, fields := flds }
        { clients := [cl], schemas := schemas, temp := [], perm := [], certs := []
          copyFails := fun _ => false, removeFails := fun _ => false, insertFails := false
          today := d, uuidSupply := u, allocCalls := 0 }
      = (Except.ok (u, ("G" ++ d) ++ "0001"),
         { clients := [cl], schemas := schemas, temp := [], perm := []
           certs := [{ uuid := u, certificate_number := ("G" ++ d) ++ "0001", type := ty
                       client_id := cl, category_id := none, fields := flds
                       photo_url := none, brand_logo_url := none
                       rear_brand_logo_url := none, is_deleted := false }]
           copyFails := fun _ => false, removeFails := fun _ => false, insertFails := false
           today := d, uuidSupply := u, allocCalls := 1 }) := by
  have hpad : pad4 1 = "0001" := rfl
  simp [create_certification, promoteOptional, pyTruthyStrOpt,
    next_certificate_number, maxString, hpad]

/-- C4: for every issuance request whose client exists and that
references an existing, active, non-deleted schema, if some field flagged
`is_required` has a falsy (or absent) submitted value, then the request
fails with the 422 error naming a missing field's human label and the
world is returned unchanged: no certificate is persisted, no file is
promoted and the allocator is never called (`allocCalls`, `certs`,
`perm`, `temp` are all those of `w`). -/
theorem c4_missing_required_field_422
    (w : World) (p : CertificationCreate) (cid : String) (schema : CategorySchema)
    (hcl : w.clients.contains p.client_id = true)
    (hcid : p.category_id = some cid) (hcid' : cid ≠ "")
    (hschema : w.schemas.find? (fun s =>
        s.uuid == cid && !s.is_deleted && s.is_active) = some schema)
    (hmiss : ∃ fd ∈ schema.fields, fd.is_required = true ∧
        pyTruthyOptV (dictGet p.fields fd.field_name) = false) :
    ∃ fd ∈ schema.fields, fd.is_required = true ∧
      pyTruthyOptV (dictGet p.fields fd.field_name) = false ∧
      create_certification p w =
        (Except.error ⟨422, "Required field \x27" ++ fd.label ++ "\x27 is missing"⟩, w) := by
  have hcl' : p.client_id ∈ w.clients := by simpa using hcl
  cases hfm : firstMissingRequired schema.fields p.fields with
  | none =>
    exfalso
    obtain ⟨fd, hmem, hreq, hval⟩ := hmiss
    have hnone := List.find?_eq_none.mp hfm fd hmem
    simp [hreq, hval] at hnone
  | some fd =>
    have hmem := List.mem_of_find?_eq_some hfm
    have hp := List.find?_some hfm
    simp only [Bool.and_eq_true, Bool.not_eq_true'] at hp
    refine ⟨fd, hmem, hp.1, hp.2, ?_⟩
    simp [create_certification, hcl', hcid, hcid', pyTruthyStrOpt, hschema,
      hfm]

/-- Witness for `c4_missing_required_field_422`: submitting
`\x7bshape, weight\x7d` against a schema whose required field is labelled
"Clarity" yields the 422 naming "Clarity" and leaves the world intact. -/
theorem c4_missing_required_field_422_witness :
    (validationWorld.clients.contains missingClarityPayload.client_id = true ∧
      missingClarityPayload.category_id = some "s1" ∧
      validationWorld.schemas.find? (fun s =>
        s.uuid == "s1" && !s.is_deleted && s.is_active) = some looseSchema ∧
      ∃ fd ∈ looseSchema.fields, fd.is_required = true ∧
        pyTruthyOptV (dictGet missingClarityPayload.fields fd.field_name) = false) ∧
    (∃ fd ∈ looseSchema.fields, fd.is_required = true ∧
      pyTruthyOptV (dictGet missingClarityPayload.fields fd.field_name) = false ∧
      create_certification missingClarityPayload validationWorld =
        (Except.error ⟨422, "Required field \x27" ++ fd.label ++ "\x27 is missing"⟩,
          validationWorld)) :=
  ⟨⟨by decide, by rfl, by rfl,
      ⟨clarityField, by simp [looseSchema], by rfl, by rfl⟩⟩,
    c4_missing_required_field_422 validationWorld missingClarityPayload "s1" looseSchema
      (by decide) (by rfl) (by decide) (by rfl)
      ⟨clarityField, by simp [looseSchema], by rfl, by rfl⟩⟩

/-- C10: the required-field check treats every falsy submitted value as
missing.  For a request whose referenced schema has the single required
field `fname` (labelled `lbl`) and whose submission binds `fname` to any
falsy value `v` — `0`, `False`, `""` or `None` — the request fails with
the same 422 error naming `lbl`, and the outcome (error and final world)
is exactly the outcome of the same request with the key absent. -/
theorem c10_falsy_required_value_rejected_as_missing
    (w : World) (p : CertificationCreate) (cid fname lbl : String)
    (fd : FieldDefinition) (schema : CategorySchema) (v : Value)
    (hcl : w.clients.contains p.client_id = true)
    (hcid : p.category_id = some cid) (hcid' : cid ≠ "")
    (hschema : w.schemas.find? (fun s =>
        s.uuid == cid && !s.is_deleted && s.is_active) = some schema)
    (hfields : schema.fields = [fd])
    (hreq : fd.is_required = true) (hname : fd.field_name = fname)
    (hlbl : fd.label = lbl)
    (hvals : p.fields = [(fname, v)])
    (hfalsy : pyTruthy v = false) :
    create_certification p w =
      (Except.error ⟨422, "Required field \x27" ++ lbl ++ "\x27 is missing"⟩, w) ∧
    create_certification p w = create_certification { p with fields := [] } w := by
  have hcl' : p.client_id ∈ w.clients := by simpa using hcl
  have hget : dictGet p.fields fd.field_name = some v := by
    simp [dictGet, hvals, hname]
  have hget0 : dictGet ([] : List (String × Value)) fd.field_name = none := by
    simp [dictGet]
  have hfm : firstMissingRequired schema.fields p.fields = some fd := by
    simp [firstMissingRequired, hfields, hreq, hget, pyTruthyOptV, hfalsy]
  have hfm0 : firstMissingRequired schema.fields ([] : List (String × Value)) = some fd := by
    simp [firstMissingRequired, hfields, hreq, hget0, pyTruthyOptV]
  constructor
  · simp [create_certification, hcl', hcid, hcid', pyTruthyStrOpt, hschema, hfm, hlbl]
  · simp [create_certification, hcl', hcid, hcid', pyTruthyStrOpt, hschema, hfm, hfm0]

/-- Witness for `c10_falsy_required_value_rejected_as_missing`:
submitting `clarity = 0` (the integer zero) against the schema requiring
"Clarity" is rejected exactly like an absent key. -/
theorem c10_falsy_required_value_rejected_as_missing_witness :
    (validationWorld.clients.contains "c" = true ∧
      looseSchema.fields = [clarityField] ∧ pyTruthy (Value.vInt 0) = false) ∧
    (create_certification
        { type := "loose_diamond", client_id := "c", category_id := some "s1"
          fields := [("clarity", Value.vInt 0)] } validationWorld =
      (Except.error ⟨422, "Required field \x27Clarity\x27 is missing"⟩, validationWorld) ∧
    create_certification
        { type := "loose_diamond", client_id := "c", category_id := some "s1"
          fields := [("clarity", Value.vInt 0)] } validationWorld =
      create_certification
        { type := "loose_diamond", client_id := "c", category_id := some "s1"
          fields := [] } validationWorld) :=
  ⟨⟨by decide, by rfl, by decide⟩,
    c10_falsy_required_value_rejected_as_missing validationWorld
      { type := "loose_diamond", client_id := "c", category_id := some "s1"
        fields := [("clarity", Value.vInt 0)] }
      "s1" "clarity" "Clarity" clarityField looseSchema (Value.vInt 0)
      (by decide) (by rfl) (by decide) (by rfl) (by rfl) (by rfl) (by rfl) (by rfl)
      (by rfl) (by decide)⟩

theorem ensure_field_ids_length (gen : Nat → String) (u : Nat)
    (fs : List FieldDefinition) : (ensure_field_ids gen u fs).length = fs.length := by
  induction fs generalizing u with
  | nil => rfl
  | cons f fs ih =>
    by_cases h : pyTruthyStrOpt f.field_id = true <;>
      simp [ensure_field_ids, h, ih]

theorem assignDisplayOrders_length (k : Nat) (fs : List FieldDefinition) :
    (assignDisplayOrders k fs).length = fs.length := by
  induction fs generalizing k with
  | nil => rfl
  | cons f fs ih => simp [assignDisplayOrders, ih]

theorem missingIdsBefore_zero (fs : List FieldDefinition) :
    missingIdsBefore fs 0 = 0 := by
  simp [missingIdsBefore]

theorem missingIdsBefore_succ (f : FieldDefinition) (fs : List FieldDefinition) (i : Nat) :
    missingIdsBefore (f :: fs) (i + 1)
      = (if pyTruthyStrOpt f.field_id then 0 else 1) + missingIdsBefore fs i := by
  by_cases h : pyTruthyStrOpt f.field_id = true
  · simp [missingIdsBefore, h]
  · simp [missingIdsBefore, h]
    omega

theorem assignDisplayOrders_getElem (k : Nat) (fs : List FieldDefinition) (i : Nat) :
    (assignDisplayOrders k fs)[i]?
      = (fs[i]?).map (fun f => { f with display_order := k + i }) := by
  induction fs generalizing k i with
  | nil => simp [assignDisplayOrders]
  | cons f fs ih =>
    cases i with
    | zero => simp [assignDisplayOrders]
    | succ j =>
      have harith : k + 1 + j = k + (j + 1) := by omega
      simp [assignDisplayOrders, ih (k + 1) j, harith]

theorem ensure_field_ids_getElem (gen : Nat → String) (u : Nat)
    (fs : List FieldDefinition) (i : Nat) :
    (ensure_field_ids gen u fs)[i]?
      = (fs[i]?).map (fun f =>
          if pyTruthyStrOpt f.field_id then f
          else { f with field_id := some (gen (u + missingIdsBefore fs i)) }) := by
  induction fs generalizing u i with
  | nil => simp [ensure_field_ids]
  | cons f fs ih =>
    by_cases h : pyTruthyStrOpt f.field_id = true
    · cases i with
      | zero => simp [ensure_field_ids, h]
      | succ j =>
        have harith : u + missingIdsBefore (f :: fs) (j + 1)
            = u + missingIdsBefore fs j := by
          simp [missingIdsBefore_succ, h]
        simp [ensure_field_ids, h, ih u j, harith]
    · cases i with
      | zero => simp [ensure_field_ids, h, missingIdsBefore_zero]
      | succ j =>
        have harith : u + missingIdsBefore (f :: fs) (j + 1)
            = u + 1 + missingIdsBefore fs j := by
          simp [missingIdsBefore_succ, h]
          omega
        simp [ensure_field_ids, h, ih (u + 1) j, harith]

/-- C8: whenever `replaceFields` succeeds, the stored (and re-read)
field list has the length of the submitted one and, at every index `i`,
holds exactly the submitted field with `display_order` set to `i`,
keeping a truthy submitted `field_id` and otherwise receiving the next
freshly generated uuid (the `missingIdsBefore`-th draw of the supply). -/
theorem c8_replace_fields_assigns_orders_and_ids
    (gen : Nat → String) (schemas : List CategorySchema) (su : String)
    (payload : List FieldDefinition) (out : CategorySchema)
    (hok : replace_fields gen schemas su payload = Except.ok out) :
    out.fields.length = payload.length ∧
    ∀ i : Nat, out.fields[i]?
      = (payload[i]?).map (fun f =>
          if pyTruthyStrOpt f.field_id then { f with display_order := i }
          else { f with
                   display_order := i
                   field_id := some (gen (missingIdsBefore payload i)) }) := by
  have hfields : out.fields = assignDisplayOrders 0 (ensure_field_ids gen 0 payload) := by
    unfold replace_fields at hok
    cases hfind : schemas.find? (fun s => s.uuid == su && !s.is_deleted) with
    | none => rw [hfind] at hok; exact absurd hok (by simp)
    | some doc => rw [hfind] at hok; cases hok; rfl
  constructor
  · rw [hfields, assignDisplayOrders_length, ensure_field_ids_length]
  · intro i
    rw [hfields, assignDisplayOrders_getElem, ensure_field_ids_getElem,
      Option.map_map]
    cases hpi : payload[i]? with
    | none => rfl
    | some f =>
      by_cases h : pyTruthyStrOpt f.field_id = true <;>
        simp [Function.comp, h, Nat.zero_add]

/-- Witness for `c8_replace_fields_assigns_orders_and_ids`: replacing the
fields of `looseSchema` with a two-field payload whose first field lacks
a `field_id` stores display orders from the array positions and
generates `uuid-0` for the first field (the second keeps `fid-1`). -/
theorem c8_replace_fields_assigns_orders_and_ids_witness :
    replace_fields genUuid [looseSchema] "s1" replacePayload
        = Except.ok replacedSchema ∧
    replacedSchema.fields.length = replacePayload.length ∧
    replacedSchema.fields[0]?
      = (replacePayload[0]?).map (fun f =>
          if pyTruthyStrOpt f.field_id then { f with display_order := 0 }
          else { f with
                   display_order := 0
                   field_id := some (genUuid (missingIdsBefore replacePayload 0)) }) :=
  ⟨by rfl,
    (c8_replace_fields_assigns_orders_and_ids genUuid [looseSchema] "s1"
      replacePayload replacedSchema (by rfl)).1,
    (c8_replace_fields_assigns_orders_and_ids genUuid [looseSchema] "s1"
      replacePayload replacedSchema (by rfl)).2 0⟩

theorem dimSafeEntries_dictGet : ∀ (d : List (String × Value)) (k : String) (v : Value),
    dimSafeEntries d = true → dictGet d k = some v → dimSafe v = true
  | [], k, v, _, hv => by simp [dictGet] at hv
  | (k1, v1) :: rest, k, v, hd, hv => by
    have hd' : dimSafe v1 = true ∧ dimSafeEntries rest = true := by
      simpa [dimSafeEntries, Bool.and_eq_true] using hd
    by_cases hk : k1 = k
    · have hv1 : v1 = v := by
        simp [dictGet, List.find?, hk] at hv
        exact hv
      exact hv1 ▸ hd'.1
    · have hv' : dictGet rest k = some v := by
        simpa [dictGet, List.find?, hk] using hv
      exact dimSafeEntries_dictGet rest k v hd'.2 hv'

theorem goNested_safe (ks : List String) :
    ∀ o : Option Value, (∀ v, o = some v → dimSafe v = true) →
      ∀ v, goNested o ks = some v → dimSafe v = true := by
  induction ks with
  | nil =>
    intro o ho v hv
    have hid : goNested o [] = o := by
      cases o with
      | none => rfl
      | some w => cases w <;> rfl
    rw [hid] at hv
    exact ho v hv
  | cons k ks ih =>
    intro o ho v hv
    match o with
    | none => simp [goNested] at hv
    | some Value.vNull => simp [goNested] at hv
    | some (Value.vStr _) => simp [goNested] at hv
    | some (Value.vInt _) => simp [goNested] at hv
    | some (Value.vBool _) => simp [goNested] at hv
    | some (Value.vDict d) =>
      have hsafe : dimSafe (Value.vDict d) = true := ho _ rfl
      have hent : dimSafeEntries d = true := by
        have := hsafe
        simp [dimSafe, Bool.and_eq_true] at this
        exact this.2
      exact ih (dictGet d k)
        (fun v1 hv1 => dimSafeEntries_dictGet d k v1 hent hv1) v hv

theorem splitOnDotAux_ne_nil : ∀ (cs acc : List Char), splitOnDotAux acc cs ≠ [] := by
  intro cs
  induction cs with
  | nil => intro acc; simp [splitOnDotAux]
  | cons c rest ih =>
    intro acc
    by_cases h : c = '.'
    · simp [splitOnDotAux, h]
    · simpa [splitOnDotAux, h] using ih (c :: acc)

theorem get_nested_value_safe (data : List (String × Value)) (path : String)
    (hsafe : dimSafeEntries data = true) :
    ∀ v, get_nested_value data path = some v → dimSafe v = true := by
  intro v hv
  unfold get_nested_value at hv
  rcases hsd : splitOnDot path with _ | ⟨k, ks⟩
  · exact absurd hsd (splitOnDotAux_ne_nil path.toList [])
  · rw [hsd] at hv
    exact goNested_safe ks (dictGet data k)
      (fun v1 hv1 => dimSafeEntries_dictGet data k v1 hsafe hv1) v hv

theorem format_composite_value_ok (d : List (String × Value))
    (h : dimOk d = true) : ∃ s, format_composite_value d = Except.ok s := by
  unfold format_composite_value
  by_cases hk : (hasKey d "length" && hasKey d "width" && hasKey d "height") = true
  · have hall : ([dictGetD d "length", dictGetD d "width",
        dictGetD d "height"].filter pyTruthy).all isVStr = true := by
      have hdk : dimKeys d = true := hk
      simpa [dimOk, hdk] using h
    rw [if_pos hk, if_pos hall]
    exact ⟨_, rfl⟩
  · rw [if_neg hk]
    exact ⟨_, rfl⟩

theorem renderValue_ok (o : Option Value)
    (ho : ∀ v, o = some v → dimSafe v = true) :
    ∃ s, renderValue o = Except.ok s := by
  match o with
  | none => exact ⟨"", rfl⟩
  | some Value.vNull => exact ⟨"", rfl⟩
  | some (Value.vStr s) => exact ⟨s, rfl⟩
  | some (Value.vInt n) => exact ⟨toString n, rfl⟩
  | some (Value.vBool b) => exact ⟨cond b "True" "False", rfl⟩
  | some (Value.vDict d) =>
    have hok : dimOk d = true := by
      have := ho _ rfl
      simp [dimSafe, Bool.and_eq_true] at this
      exact this.1
    exact format_composite_value_ok d hok

theorem substPlaceholders_ok (vals : List (String × Value))
    (hsafe : dimSafeEntries vals = true) :
    ∀ (phs : List String) (res : String),
      ∃ s, substPlaceholders phs vals res = Except.ok s := by
  intro phs
  induction phs with
  | nil => intro res; exact ⟨res, rfl⟩
  | cons ph rest ih =>
    intro res
    obtain ⟨s0, hs0⟩ := renderValue_ok (get_nested_value vals (pyStrip ph))
      (get_nested_value_safe vals (pyStrip ph) hsafe)
    have hstep : substPlaceholders (ph :: rest) vals res
        = substPlaceholders rest vals
            (pyReplace res ("\x7b" ++ pyStrip ph ++ "\x7d") s0) := by
      simp [substPlaceholders, hs0]
    rw [hstep]
    exact ih _

/-- C5 (amended): the renderer never raises as long as no map value
reachable from the submitted fields is a dimensional dict (all three of
`length`/`width`/`height` present) holding a truthy non-string part —
on such values `' x '.join` raises a TypeError.  `None` and `""`
templates render to `""`; an unrecognized placeholder written without
surrounding whitespace inside the braces is substituted by the empty
string, while one written with inner whitespace is left literal. -/
theorem c5_renderer_total_on_dimension_safe_values
    (t : Option String) (vals : List (String × Value))
    (hsafe : dimSafeEntries vals = true) :
    (∃ s, render_description_template t vals = Except.ok s) ∧
    render_description_template none vals = Except.ok "" ∧
    render_description_template (some "") vals = Except.ok "" ∧
    render_description_template (some "\x7bz\x7d") [] = Except.ok "" ∧
    render_description_template (some "\x7b z \x7d") [] = Except.ok "\x7b z \x7d" := by
  constructor
  · match t with
    | none => exact ⟨"", rfl⟩
    | some ts =>
      by_cases ht : ts = ""
      · subst ht; exact ⟨"", rfl⟩
      · obtain ⟨s, hs⟩ := substPlaceholders_ok vals hsafe
          (findPlaceholders ts.toList) ts
        refine ⟨pyStrip (collapseWs s), ?_⟩
        simp only [render_description_template, if_neg ht]
        rw [hs]
  · exact ⟨rfl, rfl, rfl, rfl⟩

/-- Witness for `c5_renderer_total_on_dimension_safe_values` on a
one-field string map. -/
theorem c5_renderer_total_on_dimension_safe_values_witness :
    dimSafeEntries [("a", Value.vStr "X")] = true ∧
    ((∃ s, render_description_template (some "\x7ba\x7d") [("a", Value.vStr "X")]
        = Except.ok s) ∧
      render_description_template none [("a", Value.vStr "X")] = Except.ok "" ∧
      render_description_template (some "") [("a", Value.vStr "X")] = Except.ok "" ∧
      render_description_template (some "\x7bz\x7d") [] = Except.ok "" ∧
      render_description_template (some "\x7b z \x7d") [] = Except.ok "\x7b z \x7d") :=
  ⟨by rfl, c5_renderer_total_on_dimension_safe_values (some "\x7ba\x7d")
    [("a", Value.vStr "X")] (by rfl)⟩

/-- C6 (amended): the dimensional formatter fires whenever all three of
`length`/`width`/`height` are present as keys — extra keys are ignored,
not comma-joined — producing the truthy parts joined by `" x "` (so a
present-but-empty `height` yields `"L x W"`); a map lacking one of the
three keys (for example one with only `length` and `width`) is rendered
as the comma-joined list of its truthy top-level values in encounter
order, so omitting the `height` key yields `"L, W"`. -/
theorem c6_dimension_formatter_requires_all_three_keys
    (l wd ht : String) (hl : l ≠ "") (hw : wd ≠ "") (extra : Value) :
    (format_composite_value [("length", Value.vStr l), ("width", Value.vStr wd),
        ("height", Value.vStr ht)]
      = Except.ok (if ht = "" then l ++ " x " ++ wd
                   else l ++ " x " ++ wd ++ " x " ++ ht)) ∧
    (format_composite_value [("length", Value.vStr l), ("width", Value.vStr wd),
        ("height", Value.vStr ht), ("depth", extra)]
      = Except.ok (if ht = "" then l ++ " x " ++ wd
                   else l ++ " x " ++ wd ++ " x " ++ ht)) ∧
    (format_composite_value [("length", Value.vStr l), ("width", Value.vStr wd)]
      = Except.ok (l ++ ", " ++ wd)) := by
  refine ⟨?_, ?_, ?_⟩ <;>
  · by_cases hht : ht = "" <;>
      simp [format_composite_value, hasKey, dictGet, dictGetD, pyJoin,
        pyStr, pyTruthy, isVStr, strOfVStr, hl, hw, hht, String.append_assoc]

/-- Witness for `c6_dimension_formatter_requires_all_three_keys` at
`length = "1"`, `width = "2"`, `height = "3"` and extra key
`depth = "4"`. -/
theorem c6_dimension_formatter_requires_all_three_keys_witness :
    (("1" : String) ≠ "" ∧ ("2" : String) ≠ "") ∧
    ((format_composite_value [("length", Value.vStr "1"), ("width", Value.vStr "2"),
        ("height", Value.vStr "3")]
      = Except.ok (if ("3" : String) = "" then "1" ++ " x " ++ "2"
                   else "1" ++ " x " ++ "2" ++ " x " ++ "3")) ∧
    (format_composite_value [("length", Value.vStr "1"), ("width", Value.vStr "2"),
        ("height", Value.vStr "3"), ("depth", Value.vStr "4")]
      = Except.ok (if ("3" : String) = "" then "1" ++ " x " ++ "2"
                   else "1" ++ " x " ++ "2" ++ " x " ++ "3")) ∧
    (format_composite_value [("length", Value.vStr "1"), ("width", Value.vStr "2")]
      = Except.ok ("1" ++ ", " ++ "2"))) :=
  ⟨⟨by decide, by decide⟩,
    c6_dimension_formatter_requires_all_three_keys "1" "2" "3"
      (by decide) (by decide) (Value.vStr "4")⟩
